import Mathlib

/-!
Shallow embedding of the bank_vault library (src/src/lib.rs): a key type
built on version-4 UUIDs, and a generic vault storing values in a
mutex-guarded hash map from keys to values.

Modelling choices:
* A 128-bit UUID is a natural number below 2 ^ 128, read as the big-endian
  u128 value of its 16 bytes (byte 0 most significant).  The nil UUID is 0.
  A fresh v4 UUID draws 16 random bytes and then forces the version nibble
  (high nibble of byte 6, bits 76 to 79 of the u128) to 0x4 and the two
  variant bits (top bits of byte 8, bits 62 and 63) to the pattern 10;
  randomness is made explicit as the Nat argument r, the 128 raw random bits.
* The hash map is modelled extensionally as a function from keys to optional
  values; insert overwrites and returns the previous value, remove deletes
  and returns the value, exactly as the Rust HashMap methods do.
* Each vault method takes the current mapping and returns its result together
  with the new mapping (explicit state passing).  The add method consumes one
  random draw.
* The mutex is modelled by LockedVault, a lock flag next to the mapping.
  Every method of the source acquires the lock with try_lock followed by
  unwrap, which panics when the lock is already held; withLock returns none
  in that case.  The update_item method is translated exactly as written: it
  calls the public remove, then the public add_with_key, hence it locks and
  unlocks twice, with an unlocked gap in between.
-/

namespace BankVault

/-- Rust `Uuid::nil()`: the all-zero 128-bit value. -/
def uuidNil : Nat := 0

/-- Size of the 128-bit space of UUID values. -/
def uuidMod : Nat := 2 ^ 128

/-- Mask keeping the 122 free bits of a v4 UUID: all bits except the version
nibble (bits 76 to 79) and the two variant bits (bits 62 and 63). -/
def uuidFreeMask : Nat := (2 ^ 128 - 1) ^^^ ((0xf <<< 76) ||| (0x3 <<< 62))

/-- Bits forced by the v4 builder (`set_version` / `set_variant`): version
nibble 0x4 at bits 76 to 79 and variant pattern 10 at bits 62 and 63. -/
def uuidVersionVariantBits : Nat := (0x4 <<< 76) ||| (0x2 <<< 62)

/-- Rust `Uuid::new_v4()` applied to the 128 raw random bits `r`: keep the
free bits of `r`, force the version and variant bits. -/
def uuidNewV4 (r : Nat) : Nat := ((r % uuidMod) &&& uuidFreeMask) ||| uuidVersionVariantBits

/-- Type `VaultKey`: a wrapper around a UUID; equality is equality of the
underlying 128-bit pattern (the derived equality of the source). -/
structure VaultKey where
  key : Nat
deriving DecidableEq, Repr

/-- Rust `VaultKey::new()`: a fresh v4 UUID from the random draw `r`. -/
def VaultKey.new (r : Nat) : VaultKey := ⟨uuidNewV4 r⟩

/-- Rust `VaultKey::zero()`: wraps the nil UUID. -/
def VaultKey.zero : VaultKey := ⟨uuidNil⟩

/-- Contents of the hash map owned by the vault, extensionally. -/
def VaultMap (T : Type) : Type := VaultKey → Option T

/-- Rust `HashMap::new()`: the empty map. -/
def VaultMap.empty (T : Type) : VaultMap T := fun _ => none

/-- Rust `HashMap::insert(k, v)`: stores `v` under `k`, replacing and
returning the previous value if one was present. -/
def VaultMap.insert {T : Type} (m : VaultMap T) (k : VaultKey) (v : T) :
    Option T × VaultMap T :=
  (m k, fun x => if x = k then some v else m x)

/-- Rust `HashMap::remove(k)`: deletes the entry under `k`, returning its
value. -/
def VaultMap.erase {T : Type} (m : VaultMap T) (k : VaultKey) :
    Option T × VaultMap T :=
  (m k, fun x => if x = k then none else m x)

/-- Rust `HashMap::contains_key(k)`. -/
def VaultMap.containsKey {T : Type} (m : VaultMap T) (k : VaultKey) : Bool :=
  (m k).isSome

namespace Vault

/-- Method `Vault::add`: generate a fresh key from the draw `r`, insert the
value under it, return the key (and the new mapping). -/
def add {T : Type} (m : VaultMap T) (to_add : T) (r : Nat) :
    VaultKey × VaultMap T :=
  let key := VaultKey.new r
  (key, (m.insert key to_add).2)

/-- Method `Vault::remove`: remove the entry under the key from the guarded
map, returning the stored value if present. -/
def remove {T : Type} (m : VaultMap T) (k : VaultKey) :
    Option T × VaultMap T :=
  m.erase k

/-- Method `Vault::has_item`: membership test on the guarded map. -/
def has_item {T : Type} (m : VaultMap T) (k : VaultKey) : Bool :=
  m.containsKey k

/-- Method `Vault::add_with_key`: the source runs `insert(*key, to_add)` and
returns `is_none()` of the result.  Note that the insert replaces an existing
value, so on an occupied key the old value is overwritten even though false
is returned. -/
def add_with_key {T : Type} (m : VaultMap T) (to_add : T) (k : VaultKey) :
    Bool × VaultMap T :=
  let p := m.insert k to_add
  (p.1.isNone, p.2)

/-- Method `Vault::update_item`: the source runs the public remove, maps the
closure over the result (re-inserting through the public add_with_key, whose
boolean is discarded), and returns `is_some()` of the mapped option. -/
def update_item {T : Type} (m : VaultMap T) (k : VaultKey) (operation : T → T) :
    Bool × VaultMap T :=
  let p := remove m k
  match p.1 with
  | some i => (true, (add_with_key p.2 (operation i) k).2)
  | none => (false, p.2)

/-- Method `Vault::clear`: empties the guarded map. -/
def clear {T : Type} (_m : VaultMap T) : VaultMap T := fun _ => none

end Vault

/-- State of a vault together with its mutex: field `items` is the guarded
map, and `locked = true` means some caller currently holds the lock. -/
structure LockedVault (T : Type) where
  locked : Bool
  items : VaultMap T

/-- One critical section: `try_lock` followed by `unwrap`, then a single map
operation, then the release of the guard.  If the lock is already held,
`try_lock` fails and `unwrap` panics (modelled as `none`).  Otherwise the
operation runs on the mapping and the lock is free again on return. -/
def withLock {T α : Type} (s : LockedVault T) (op : VaultMap T → α × VaultMap T) :
    Option (α × LockedVault T) :=
  if s.locked then none
  else
    let p := op s.items
    some (p.1, ⟨false, p.2⟩)

namespace LockedVault

/-- Method `Vault::remove` on the locked vault: one critical section. -/
def remove {T : Type} (s : LockedVault T) (k : VaultKey) :
    Option (Option T × LockedVault T) :=
  withLock s (fun m => Vault.remove m k)

/-- Method `Vault::has_item` on the locked vault: one critical section that
leaves the mapping as it was. -/
def has_item {T : Type} (s : LockedVault T) (k : VaultKey) :
    Option (Bool × LockedVault T) :=
  withLock s (fun m => (Vault.has_item m k, m))

/-- Method `Vault::add_with_key` on the locked vault: one critical section. -/
def add_with_key {T : Type} (s : LockedVault T) (to_add : T) (k : VaultKey) :
    Option (Bool × LockedVault T) :=
  withLock s (fun m => Vault.add_with_key m to_add k)

/-- Method `Vault::update_item` on the locked vault, translated exactly as
the source writes it: it calls the public remove (first critical section)
and, when a value came out, the public add_with_key (second critical
section).  Between the two sections the lock is free. -/
def update_item {T : Type} (s : LockedVault T) (k : VaultKey) (operation : T → T) :
    Option (Bool × LockedVault T) :=
  match remove s k with
  | none => none
  | some (some i, s1) =>
    match add_with_key s1 (operation i) k with
    | none => none
    | some (_, s2) => some (true, s2)
  | some (none, s1) => some (false, s1)

end LockedVault

/-- Concrete one-entry mapping used by the concrete instantiations below:
the zero key stores the number 1. -/
def singletonMap : VaultMap Nat := fun x => if x = VaultKey.zero then some 1 else none

/-- Every v4 UUID has bit 78 set (part of the forced 0x4 version nibble). -/
theorem uuidNewV4_testBit78 (r : Nat) : (uuidNewV4 r).testBit 78 = true := by
  simp [uuidNewV4, Nat.testBit_lor]
  right
  decide

/-- C1 (code evaluated at the failing input): starting from the empty vault,
add_with_key stores 1 under the zero key and returns true; a second
add_with_key of the value 2 under the same key returns false, yet the stored
value has been replaced: the entry now holds 2, and remove yields some 2
instead of the original 1.  This contradicts the claim (and the doc comment
of the source) that the original value is retained. -/
theorem spec_C1_bug :
    (Vault.add_with_key (VaultMap.empty Nat) 1 VaultKey.zero).1 = true
    ∧ (Vault.add_with_key (Vault.add_with_key (VaultMap.empty Nat) 1 VaultKey.zero).2
        2 VaultKey.zero).1 = false
    ∧ (Vault.remove (Vault.add_with_key (Vault.add_with_key (VaultMap.empty Nat) 1
        VaultKey.zero).2 2 VaultKey.zero).2 VaultKey.zero).1 = some 2 := by
  refine ⟨rfl, ?_, ?_⟩ <;> decide

/-- C2 counterexample: with the zero key storing 1 and the lock free, the
first half of update_item (the call to the public remove) succeeds and leaves
the lock FREE while the entry is absent; a concurrent has_item at that point
acquires the lock and observes absence (false); update_item run to completion
is present to present; and if the lock were instead held for the whole call,
the inner try_lock would panic (none).  So update_item is not one
exclusive-access scope and the intermediate absence is observable. -/
theorem spec_C2_counterexample :
    singletonMap VaultKey.zero = some 1
    ∧ (LockedVault.remove ⟨false, singletonMap⟩ VaultKey.zero).map
        (fun p => (p.1, p.2.locked, p.2.items VaultKey.zero)) = some (some 1, false, none)
    ∧ ((LockedVault.remove ⟨false, singletonMap⟩ VaultKey.zero).bind
        (fun p => LockedVault.has_item p.2 VaultKey.zero)).map (fun q => q.1) = some false
    ∧ (LockedVault.update_item ⟨false, singletonMap⟩ VaultKey.zero (fun x => x * 2)).map
        (fun p => (p.1, p.2.items VaultKey.zero)) = some (true, some 2)
    ∧ LockedVault.update_item ⟨true, singletonMap⟩ VaultKey.zero (fun x => x * 2) = none := by
  refine ⟨rfl, ?_, ?_, ?_, rfl⟩ <;> decide

/-- C2 amended: each single mapping access runs in its own critical section,
but update_item as a whole spans two of them.  For any unlocked state whose
map stores v0 under k: the first critical section (the public remove inside
update_item) returns v0 and ends with the lock free and the entry absent;
a concurrent has_item interleaved at that point succeeds and returns false;
update_item run without interference returns true and ends unlocked with k
storing f v0; and calling update_item while the lock is held panics (none),
so the call cannot execute under one enclosing exclusive-access scope. -/
theorem spec_C2_amended {T : Type} (s : LockedVault T) (k : VaultKey) (f : T → T) (v0 : T)
    (hl : s.locked = false) (hk : s.items k = some v0) :
    (LockedVault.remove s k).map (fun p => (p.1, p.2.locked, p.2.items k))
      = some (some v0, false, none)
    ∧ ((LockedVault.remove s k).bind (fun p => LockedVault.has_item p.2 k)).map
        (fun q => (q.1, q.2.locked)) = some (false, false)
    ∧ (LockedVault.update_item s k f).map (fun p => (p.1, p.2.locked, p.2.items k))
        = some (true, false, some (f v0))
    ∧ LockedVault.update_item ⟨true, s.items⟩ k f = none := by
  obtain ⟨l, m⟩ := s
  subst hl
  simp only at hk
  refine ⟨?_, ?_, ?_, rfl⟩
  · simp [LockedVault.remove, withLock, Vault.remove, VaultMap.erase, hk]
  · simp [LockedVault.remove, LockedVault.has_item, withLock, Vault.remove,
      VaultMap.erase, Vault.has_item, VaultMap.containsKey, hk]
  · simp [LockedVault.update_item, LockedVault.remove, LockedVault.add_with_key,
      withLock, Vault.remove, VaultMap.erase, Vault.add_with_key, VaultMap.insert, hk]

/-- C2 witness: the amended statement instantiated at the one-entry map, the
zero key, the doubling transform and stored value 1. -/
theorem spec_C2_witness :
    singletonMap VaultKey.zero = some 1
    ∧ ((LockedVault.remove ⟨false, singletonMap⟩ VaultKey.zero).map
        (fun p => (p.1, p.2.locked, p.2.items VaultKey.zero))
        = some (some 1, false, none)
      ∧ ((LockedVault.remove ⟨false, singletonMap⟩ VaultKey.zero).bind
          (fun p => LockedVault.has_item p.2 VaultKey.zero)).map
          (fun q => (q.1, q.2.locked)) = some (false, false)
      ∧ (LockedVault.update_item ⟨false, singletonMap⟩ VaultKey.zero (fun x => x * 2)).map
          (fun p => (p.1, p.2.locked, p.2.items VaultKey.zero))
          = some (true, false, some 2)
      ∧ LockedVault.update_item ⟨true, singletonMap⟩ VaultKey.zero (fun x => x * 2) = none) :=
  ⟨rfl, spec_C2_amended ⟨false, singletonMap⟩ VaultKey.zero (fun x => x * 2) 1 rfl rfl⟩

/-- C3: for every mapping, key k present with stored value v0 and transform
f, update_item returns true, afterwards k stores f v0, and a subsequent
remove on k yields some (f v0). -/
theorem spec_C3 {T : Type} (m : VaultMap T) (k : VaultKey) (v0 : T) (f : T → T)
    (h : m k = some v0) :
    (Vault.update_item m k f).1 = true
    ∧ (Vault.update_item m k f).2 k = some (f v0)
    ∧ (Vault.remove (Vault.update_item m k f).2 k).1 = some (f v0) := by
  simp [Vault.update_item, Vault.remove, VaultMap.erase, Vault.add_with_key,
    VaultMap.insert, h]

/-- C3 witness: updating the zero key (storing 1) with doubling returns true
and leaves 2 retrievable via remove. -/
theorem spec_C3_witness :
    (Vault.update_item singletonMap VaultKey.zero (fun x => x * 2)).1 = true
    ∧ (Vault.update_item singletonMap VaultKey.zero (fun x => x * 2)).2 VaultKey.zero = some 2
    ∧ (Vault.remove (Vault.update_item singletonMap VaultKey.zero (fun x => x * 2)).2
        VaultKey.zero).1 = some 2 :=
  spec_C3 singletonMap VaultKey.zero 1 (fun x => x * 2) rfl

/-- C4: for every mapping and key k absent from it, update_item returns false
and the entire mapping is unchanged; no error is raised (the result is an
ordinary boolean). -/
theorem spec_C4 {T : Type} (m : VaultMap T) (k : VaultKey) (f : T → T)
    (h : m k = none) :
    (Vault.update_item m k f).1 = false ∧ (Vault.update_item m k f).2 = m := by
  constructor
  · simp [Vault.update_item, Vault.remove, VaultMap.erase, h]
  · funext x
    by_cases hx : x = k
    · subst hx
      simp [Vault.update_item, Vault.remove, VaultMap.erase, h]
    · simp [Vault.update_item, Vault.remove, VaultMap.erase, h, hx]

/-- C4 witness: updating the zero key in the empty vault returns false and
leaves the map empty. -/
theorem spec_C4_witness :
    (Vault.update_item (VaultMap.empty Nat) VaultKey.zero (fun x => x)).1 = false
    ∧ (Vault.update_item (VaultMap.empty Nat) VaultKey.zero (fun x => x)).2
        = VaultMap.empty Nat :=
  spec_C4 (VaultMap.empty Nat) VaultKey.zero (fun x => x) rfl

/-- C5: for every mapping and key k, if k stores v then remove returns some v
and deletes the entry, so an immediate second remove returns none; and if k
is absent then remove returns none. -/
theorem spec_C5 {T : Type} (m : VaultMap T) (k : VaultKey) :
    (∀ v, m k = some v →
      (Vault.remove m k).1 = some v
      ∧ (Vault.remove m k).2 k = none
      ∧ (Vault.remove (Vault.remove m k).2 k).1 = none)
    ∧ (m k = none → (Vault.remove m k).1 = none) := by
  constructor
  · intro v hv
    simp [Vault.remove, VaultMap.erase, hv]
  · intro hn
    simp [Vault.remove, VaultMap.erase, hn]

/-- C5 witness: removing the zero key (storing 1) yields some 1 then none on
a second removal, and removing from the empty vault yields none. -/
theorem spec_C5_witness :
    ((Vault.remove singletonMap VaultKey.zero).1 = some 1
     ∧ (Vault.remove singletonMap VaultKey.zero).2 VaultKey.zero = none
     ∧ (Vault.remove (Vault.remove singletonMap VaultKey.zero).2 VaultKey.zero).1 = none)
    ∧ (Vault.remove (VaultMap.empty Nat) VaultKey.zero).1 = none :=
  ⟨(spec_C5 singletonMap VaultKey.zero).1 1 rfl,
   (spec_C5 (VaultMap.empty Nat) VaultKey.zero).2 rfl⟩

/-- C6: for every mapping, value v and random draw r, add returns the key
generated from r, the pair (key, v) is in the mapping afterwards, and
has_item on the returned key is true. -/
theorem spec_C6 {T : Type} (m : VaultMap T) (v : T) (r : Nat) :
    (Vault.add m v r).1 = VaultKey.new r
    ∧ (Vault.add m v r).2 (Vault.add m v r).1 = some v
    ∧ Vault.has_item (Vault.add m v r).2 (Vault.add m v r).1 = true := by
  refine ⟨rfl, ?_, ?_⟩ <;>
    simp [Vault.add, Vault.has_item, VaultMap.containsKey, VaultMap.insert]

/-- C7: after clear the mapping is empty: has_item returns false for every
key, in particular every previously added one. -/
theorem spec_C7 {T : Type} (m : VaultMap T) (k : VaultKey) :
    Vault.has_item (Vault.clear m) k = false := rfl

/-- C8: the zero constructor is the fixed all-zero key (a constant, hence
pure and deterministic), and no random draw can make the v4 generator
produce it, because the generator always forces the version bits. -/
theorem spec_C8 :
    VaultKey.zero.key = uuidNil ∧ ∀ r : Nat, VaultKey.new r ≠ VaultKey.zero := by
  refine ⟨rfl, fun r h => ?_⟩
  have hk : uuidNewV4 r = uuidNil := congrArg VaultKey.key h
  have h78 := uuidNewV4_testBit78 r
  rw [hk] at h78
  simp [uuidNil] at h78

/-- C8 witness: the key generated from the draw 0 differs from the zero
key. -/
theorem spec_C8_witness : VaultKey.new 0 ≠ VaultKey.zero := spec_C8.2 0

/-- C9 counterexample: if the process-wide random source yields the same
128 bits for two separate add calls on the same vault (draw 37 both times),
the two returned keys are equal, so the keys are not NEVER equal. -/
theorem spec_C9_counterexample :
    (Vault.add (VaultMap.empty Nat) 1 37).1 =
      (Vault.add (Vault.add (VaultMap.empty Nat) 1 37).2 2 37).1 := rfl

/-- C9 amended: the keys returned by two separate add calls are equal exactly
when the two underlying 128-bit random draws coincide after the v4 version
and variant masking; in particular the keys differ whenever the draws differ
in any of the 122 free bits, which uniform randomness makes overwhelmingly
likely but not certain. -/
theorem spec_C9_amended {T : Type} (m1 m2 : VaultMap T) (v1 v2 : T) (r1 r2 : Nat) :
    (Vault.add m1 v1 r1).1 = (Vault.add m2 v2 r2).1 ↔ uuidNewV4 r1 = uuidNewV4 r2 := by
  constructor
  · intro h
    exact congrArg VaultKey.key h
  · intro h
    simp [Vault.add, VaultKey.new, h]

/-- C9 witness: with the distinct draws 0 and 1 the two add calls return
distinct keys. -/
theorem spec_C9_witness :
    (Vault.add (VaultMap.empty Nat) 1 0).1 ≠ (Vault.add (VaultMap.empty Nat) 2 1).1 :=
  fun h => absurd ((spec_C9_amended (VaultMap.empty Nat) (VaultMap.empty Nat) 1 2 0 1).mp h)
    (by decide)

/-- C10: has_item performs no mutation (the locked state comes back exactly
as it went in), remove, add_with_key and update_item on key k leave the
entry under every other key unchanged, and add leaves every key other than
the freshly returned one unchanged. -/
theorem spec_C10 {T : Type} (m : VaultMap T) (k k' : VaultKey) (v : T) (f : T → T)
    (r : Nat) :
    LockedVault.has_item ⟨false, m⟩ k = some (Vault.has_item m k, ⟨false, m⟩)
    ∧ (k' ≠ k →
        (Vault.remove m k).2 k' = m k'
        ∧ (Vault.add_with_key m v k).2 k' = m k'
        ∧ (Vault.update_item m k f).2 k' = m k')
    ∧ (k' ≠ (Vault.add m v r).1 → (Vault.add m v r).2 k' = m k') := by
  refine ⟨rfl, fun hne => ⟨?_, ?_, ?_⟩, fun hne => ?_⟩
  · simp [Vault.remove, VaultMap.erase, hne]
  · simp [Vault.add_with_key, VaultMap.insert, hne]
  · cases hmk : m k <;>
      simp [Vault.update_item, Vault.remove, VaultMap.erase, Vault.add_with_key,
        VaultMap.insert, hmk, hne]
  · simp only [Vault.add, VaultMap.insert] at hne ⊢
    simp [hne]

/-- C10 witness: on the one-entry map, operations on the zero key do not
touch the absent entry under the key generated from draw 0, and an add with
draw 1 does not touch it either. -/
theorem spec_C10_witness :
    (LockedVault.has_item ⟨false, singletonMap⟩ VaultKey.zero
      = some (true, ⟨false, singletonMap⟩))
    ∧ ((Vault.remove singletonMap VaultKey.zero).2 (VaultKey.new 0) = none
      ∧ (Vault.add_with_key singletonMap 5 VaultKey.zero).2 (VaultKey.new 0) = none
      ∧ (Vault.update_item singletonMap VaultKey.zero (fun x => x * 2)).2 (VaultKey.new 0)
          = none)
    ∧ (Vault.add singletonMap 5 1).2 (VaultKey.new 0) = none :=
  have h := spec_C10 singletonMap VaultKey.zero (VaultKey.new 0) 5 (fun x => x * 2) 1
  ⟨h.1, h.2.1 (by decide), h.2.2 (by decide)⟩

end BankVault
